import Mathlib

/-
  Shallow embedding of the lifecycle controller in
  src/main/esp32-lcm.c and src/unnamed/part_000 (application file) of the
  esp32-smart-connect-plug repository.

  Machine integers are modelled as Nat with explicit bounds where overflow
  matters (the restart counter is a uint32_t).  Fallible ESP-IDF calls are
  modelled by explicit fault environments (one Bool per independently
  fallible step), and stateful code by explicit state passing.
-/

/-- uint32_t maximum, as used by `lifecycle_increment_restart_counter`. -/
def UINT32_MAX : Nat := 4294967295

/-- The validity sentinel `k_post_reset_magic = 0xC0DEC0DE` for the
RTC-resident post-reset state block. -/
def k_post_reset_magic : Nat := 0xC0DEC0DE

/-- `lifecycle_post_reset_reason_t` from esp32-lcm.h
(0 = NONE, 1 = HOMEKIT, 2 = FACTORY, 3 = UPDATE). -/
inductive lifecycle_post_reset_reason_t
| LIFECYCLE_POST_RESET_NONE
| LIFECYCLE_POST_RESET_REASON_HOMEKIT
| LIFECYCLE_POST_RESET_REASON_FACTORY
| LIFECYCLE_POST_RESET_REASON_UPDATE
deriving DecidableEq, Repr

open lifecycle_post_reset_reason_t

/-- Numeric code stored in the RTC `reason` field for each enum value,
matching the C enum assignment. -/
def reason_code : lifecycle_post_reset_reason_t → Nat
| LIFECYCLE_POST_RESET_NONE => 0
| LIFECYCLE_POST_RESET_REASON_HOMEKIT => 1
| LIFECYCLE_POST_RESET_REASON_FACTORY => 2
| LIFECYCLE_POST_RESET_REASON_UPDATE => 3

/-- Decode a stored u32 code back to the enum; only called on codes that
already passed the range check in `lifecycle_peek_post_reset_reason`. -/
def reason_of_code (n : Nat) : lifecycle_post_reset_reason_t :=
  match n with
  | 0 => LIFECYCLE_POST_RESET_NONE
  | 1 => LIFECYCLE_POST_RESET_REASON_HOMEKIT
  | 2 => LIFECYCLE_POST_RESET_REASON_FACTORY
  | 3 => LIFECYCLE_POST_RESET_REASON_UPDATE
  | _ => LIFECYCLE_POST_RESET_NONE

/-- The RTC_DATA_ATTR block `s_post_reset_state` (magic, reason,
restart_count), all uint32_t.  It survives a warm reboot unchanged and is
zero-initialised on a full power cycle. -/
structure PostResetState where
  magic : Nat
  reason : Nat
  restart_count : Nat
deriving DecidableEq, Repr

/-- `lifecycle_mark_post_reset`: stamp the magic tag and store the reason
code. -/
def lifecycle_mark_post_reset (s : PostResetState)
    (r : lifecycle_post_reset_reason_t) : PostResetState :=
  { s with magic := k_post_reset_magic, reason := reason_code r }

/-- `lifecycle_peek_post_reset_reason`: NONE when the magic tag does not
match; NONE when the stored code is out of range (in C the u32 is cast to
the enum and checked `< NONE || > UPDATE`, which rejects exactly the codes
other than 0..3: codes in [4, 2^31) fail the upper check and codes ≥ 2^31
become negative ints and fail the lower check); otherwise the decoded
reason. -/
def lifecycle_peek_post_reset_reason (s : PostResetState) :
    lifecycle_post_reset_reason_t :=
  if s.magic ≠ k_post_reset_magic then LIFECYCLE_POST_RESET_NONE
  else if 3 < s.reason then LIFECYCLE_POST_RESET_NONE
  else reason_of_code s.reason

/-- `lifecycle_clear_post_reset_state`: zero the magic tag and the reason;
the restart counter field is left untouched. -/
def lifecycle_clear_post_reset_state (s : PostResetState) : PostResetState :=
  { s with magic := 0, reason := 0 }

/-- `lifecycle_increment_restart_counter` on the counter value: a counter
equal to UINT32_MAX is set to 0 before the increment, so the increment
itself never overflows. -/
def lifecycle_increment_restart_counter (c : Nat) : Nat :=
  (if c = UINT32_MAX then 0 else c) + 1

/-- Fault environment for the NVS-backed restart-counter tier: whether the
load path (nvs init / open / get) fails, and whether the save path
(nvs init / open / set / commit) fails. -/
structure BootFaults where
  load_fails : Bool
  save_fails : Bool
deriving DecidableEq, Repr

/-- No storage faults. -/
def noFaults : BootFaults := { load_fails := false, save_fails := false }

/-- `load_restart_counter_from_nvs`: on success the out value is the stored
u32, or 0 when the key is absent (ESP_ERR_NVS_NOT_FOUND is converted to
ESP_OK with value 0); any init/open/get failure is reported to the caller,
which then keeps the RTC value. -/
def load_restart_counter_from_nvs (store : Option Nat) (f : BootFaults) :
    Except Unit Nat :=
  if f.load_fails then Except.error () else Except.ok (store.getD 0)

/-- `save_restart_counter_to_nvs`: writes and commits the value; a value is
durable only when the commit succeeded, so on failure the durable tier is
unchanged.  Returns the durable tier afterwards and whether the save
succeeded. -/
def save_restart_counter_to_nvs (store : Option Nat) (value : Nat)
    (f : BootFaults) : Option Nat × Bool :=
  if f.save_fails then (store, false) else (some value, true)

/-- `lifecycle_reset_restart_counter`: zero the RTC counter and best-effort
persist 0 to NVS (a failed save is only logged). -/
def lifecycle_reset_restart_counter (s : PostResetState) (store : Option Nat)
    (f : BootFaults) : PostResetState × Option Nat :=
  ({ s with restart_count := 0 }, (save_restart_counter_to_nvs store 0 f).1)

/-- `lifecycle_restart_counter_timeout`: the debounce-timer callback simply
runs the reset-counter procedure. -/
def lifecycle_restart_counter_timeout (s : PostResetState) (store : Option Nat)
    (f : BootFaults) : PostResetState × Option Nat :=
  lifecycle_reset_restart_counter s store f

/-- Combined lifecycle state visible to the boot protocol: the RTC block and
the durable `lcm/restart_count` key (none = key absent). -/
structure LcmState where
  post_reset : PostResetState
  nvs_count : Option Nat
deriving DecidableEq, Repr

/-- One countdown step of the crash-loop branch: the logged value and the
delay in milliseconds that follows it (`vTaskDelay(pdMS_TO_TICKS(1000))`).
The C loop `for (int i = 10; i >= 0; --i)` produces values 10 down to 0. -/
def countdownSteps : List (Nat × Nat) :=
  (List.range 11).map (fun k => (10 - k, 1000))

/-- Observable outcome of one run of `lifecycle_log_post_reset_state`:
the logged `consecutive_restart_count`, the countdown steps emitted (empty
off the crash-loop branch), whether `lifecycle_factory_reset_and_reboot`
was invoked, and the post-reset reason reported (none when the crash-loop
branch returned before the report). -/
structure BootOutcome where
  reported_count : Nat
  countdown : List (Nat × Nat)
  factory_reset_invoked : Bool
  reported_reason : Option lifecycle_post_reset_reason_t
deriving DecidableEq, Repr

/-- The counter-reconciliation step of `lifecycle_log_post_reset_state`
(lines 434-444): the durable value replaces the RTC value only when the
load succeeded and it is strictly larger. -/
def reconciled_counter (st : LcmState) (f : BootFaults) : Nat :=
  match load_restart_counter_from_nvs st.nvs_count f with
  | Except.ok persisted =>
      if persisted > st.post_reset.restart_count then persisted
      else st.post_reset.restart_count
  | Except.error _ => st.post_reset.restart_count

/-- `lifecycle_log_post_reset_state`: reconcile the RTC counter with the
durable counter, increment, best-effort persist, then either run the
crash-loop branch (countdown, reset counter, invoke factory reset — the
returned state is the state at the moment the factory-reset sequence is
entered) or report and clear the post-reset reason.  The debounce timer is
armed in both cases; its firing is modelled separately by
`lifecycle_restart_counter_timeout`. -/
def lifecycle_log_post_reset_state (st : LcmState) (f : BootFaults) :
    LcmState × BootOutcome :=
  let restart_count :=
    lifecycle_increment_restart_counter (reconciled_counter st f)
  let s2 := { st.post_reset with restart_count := restart_count }
  let nvs1 := (save_restart_counter_to_nvs st.nvs_count restart_count f).1
  if 10 ≤ restart_count then
    let reset := lifecycle_reset_restart_counter s2 nvs1 f
    ({ post_reset := reset.1, nvs_count := reset.2 },
     { reported_count := restart_count,
       countdown := countdownSteps,
       factory_reset_invoked := true,
       reported_reason := none })
  else
    ({ post_reset := lifecycle_clear_post_reset_state s2, nvs_count := nvs1 },
     { reported_count := restart_count,
       countdown := [],
       factory_reset_invoked := false,
       reported_reason := some (lifecycle_peek_post_reset_reason s2) })

/-- State at first power-on: RTC memory zero-initialised, durable key
absent. -/
def freshState : LcmState :=
  { post_reset := { magic := 0, reason := 0, restart_count := 0 },
    nvs_count := none }

/-- Run `n` consecutive boots (warm reboots: RTC state preserved, debounce
timer never firing in between, no storage faults); returns the final state
and the number of automatic factory-reset invocations. -/
def runBoots : Nat → LcmState → LcmState × Nat
| 0, st => (st, 0)
| n + 1, st =>
    let step := lifecycle_log_post_reset_state st noFaults
    let rest := runBoots n step.1
    (rest.1, (if step.2.factory_reset_invoked then 1 else 0) + rest.2)

/-
  NetworkManager: wifi_start / nvs_load_wifi (esp32-lcm.c lines 113-179 and
  541-606) and the ready-callback consumer on_wifi_ready (application file).
-/

/-- The subset of esp_err_t codes the wifi paths distinguish. -/
inductive EspErr
| ESP_OK
| ESP_ERR_NVS_NOT_FOUND
| ESP_FAIL
| ESP_ERR_NO_MEM
deriving DecidableEq, Repr

/-- `wifi_auth_mode_t` values chosen by wifi_start. -/
inductive WifiAuthMode
| WIFI_AUTH_OPEN
| WIFI_AUTH_WPA2_PSK
deriving DecidableEq, Repr

/-- The wifi module statics: s_wifi_started, s_wifi_on_ready_cb (callbacks
modelled by an identifier), s_wifi_netif, plus the observable results of
handler registration, radio start and the configured auth mode. -/
structure WifiState where
  s_wifi_started : Bool
  s_wifi_on_ready_cb : Option Nat
  s_wifi_netif : Bool
  wifi_handler_registered : Bool
  ip_handler_registered : Bool
  radio_started : Bool
  sta_authmode : Option WifiAuthMode
deriving DecidableEq, Repr

/-- Environment for wifi_start: the `wifi_cfg` namespace contents
(wifi_ssid / wifi_password keys; none = key absent) and a fault flag for
each independently fallible ESP-IDF call on the path. -/
structure WifiEnv where
  nvs_ssid : Option String
  nvs_password : Option String
  nvs_init_fails : Bool
  nvs_open_fails : Bool
  netif_init_fails : Bool
  event_loop_create_fails : Bool
  netif_create_fails : Bool
  wifi_handler_register_fails : Bool
  ip_handler_register_fails : Bool
  wifi_init_fails : Bool
  radio_start_fails : Bool
deriving DecidableEq, Repr

/-- Side effects wifi_start can perform, in program order. -/
inductive WifiAction
| load_credentials
| netif_init
| event_loop_create
| netif_create
| register_wifi_handler
| register_ip_handler
| wifi_init_radio
| set_config
| radio_start
deriving DecidableEq, Repr

/-- `nvs_load_wifi`: after NVS init and opening `wifi_cfg`, a missing
`wifi_ssid` key surfaces ESP_ERR_NVS_NOT_FOUND; a missing `wifi_password`
key is replaced by the empty string. -/
def nvs_load_wifi (env : WifiEnv) : Except EspErr (String × String) :=
  if env.nvs_init_fails then Except.error EspErr.ESP_FAIL
  else if env.nvs_open_fails then Except.error EspErr.ESP_FAIL
  else
    match env.nvs_ssid with
    | none => Except.error EspErr.ESP_ERR_NVS_NOT_FOUND
    | some ssid => Except.ok (ssid, env.nvs_password.getD "")

/-- `wifi_start`: when already started, only the stored ready-callback is
replaced and ESP_OK returned.  Otherwise credentials are loaded (a missing
SSID returns the not-provisioned error before any interface work), the auth
mode is derived from whether the password is empty, and the netif / event
loop / handlers / driver / radio chain runs with an early return on each
failure.  Returns the error code, the new state, and the actions that were
attempted. -/
def wifi_start (s : WifiState) (on_ready : Nat) (env : WifiEnv) :
    EspErr × WifiState × List WifiAction :=
  if s.s_wifi_started then
    (EspErr.ESP_OK, { s with s_wifi_on_ready_cb := some on_ready }, [])
  else
    match nvs_load_wifi env with
    | Except.error e => (e, s, [WifiAction.load_credentials])
    | Except.ok cred =>
      let authmode :=
        if cred.2 = "" then WifiAuthMode.WIFI_AUTH_OPEN
        else WifiAuthMode.WIFI_AUTH_WPA2_PSK
      if env.netif_init_fails then
        (EspErr.ESP_FAIL, s, [WifiAction.load_credentials, WifiAction.netif_init])
      else if env.event_loop_create_fails then
        (EspErr.ESP_FAIL, s,
         [WifiAction.load_credentials, WifiAction.netif_init,
          WifiAction.event_loop_create])
      else
        let created := s.s_wifi_netif = false
        if env.netif_create_fails ∧ created then
          (EspErr.ESP_ERR_NO_MEM, s,
           [WifiAction.load_credentials, WifiAction.netif_init,
            WifiAction.event_loop_create, WifiAction.netif_create])
        else
          let s1 := { s with s_wifi_netif := true }
          let acts0 :=
            [WifiAction.load_credentials, WifiAction.netif_init,
             WifiAction.event_loop_create] ++
            (if created then [WifiAction.netif_create] else [])
          if env.wifi_handler_register_fails then
            (EspErr.ESP_FAIL, s1, acts0 ++ [WifiAction.register_wifi_handler])
          else
            let s2 := { s1 with wifi_handler_registered := true }
            if env.ip_handler_register_fails then
              (EspErr.ESP_FAIL, s2,
               acts0 ++ [WifiAction.register_wifi_handler,
                         WifiAction.register_ip_handler])
            else
              let s3 := { s2 with ip_handler_registered := true }
              let acts1 := acts0 ++ [WifiAction.register_wifi_handler,
                                     WifiAction.register_ip_handler]
              if env.wifi_init_fails then
                (EspErr.ESP_FAIL, s3, acts1 ++ [WifiAction.wifi_init_radio])
              else
                let s4 := { s3 with sta_authmode := some authmode }
                if env.radio_start_fails then
                  (EspErr.ESP_FAIL, s4,
                   acts1 ++ [WifiAction.wifi_init_radio, WifiAction.set_config,
                             WifiAction.radio_start])
                else
                  (EspErr.ESP_OK,
                   { s4 with radio_started := true,
                             s_wifi_on_ready_cb := some on_ready,
                             s_wifi_started := true },
                   acts1 ++ [WifiAction.wifi_init_radio, WifiAction.set_config,
                             WifiAction.radio_start])

/-- `on_wifi_ready` (application file): guarded by the function-local
static `homekit_started`; returns the new flag value and whether
`homekit_server_init` was called on this invocation. -/
def on_wifi_ready (homekit_started : Bool) : Bool × Bool :=
  if homekit_started then (homekit_started, false) else (true, true)

/-- `wifi_event_handler` on IP_EVENT_STA_GOT_IP invokes the stored ready
callback when one is present; here the callback is on_wifi_ready, so each
GOT_IP event with a stored callback folds through `on_wifi_ready`. -/
def wifi_event_handler_got_ip (cb : Option Nat) (homekit_started : Bool) :
    Bool × Bool :=
  if cb.isSome then on_wifi_ready homekit_started else (homekit_started, false)

/-- Fold `n` invocations of the ready callback, counting how many of them
called `homekit_server_init`. -/
def run_wifi_ready : Nat → Bool → Bool × Nat
| 0, b => (b, 0)
| n + 1, b =>
    let step := on_wifi_ready b
    let rest := run_wifi_ready n step.1
    (rest.1, (if step.2 then 1 else 0) + rest.2)

/-
  Factory-reset sequence (esp32-lcm.c lines 1063-1124) as an observable
  step trace, and the OTA partition-erase helpers (lines 982-1061) over an
  explicit partition table.
-/

/-- Fault environment for lifecycle_factory_reset_and_reboot: every
independently fallible call on the sequence, plus whether the weak
wifi_config_shutdown hook is linked in. -/
structure ResetFaults where
  nvs_save_fails : Bool
  nvs_open_fails : Bool
  factory_partition_missing : Bool
  set_boot_fails : Bool
  mdns_remove_fails : Bool
  wifi_stop_fails : Bool
  partition_erase_fails : Bool
  nvs_erase_fails : Bool
  wifi_restore_fails : Bool
  provisioning_hook_present : Bool
deriving DecidableEq, Repr

/-- The steps of the deliberate-reboot sequences, named after the
lifecycle_log_step strings and the calls they wrap. -/
inductive Step
| reset_restart_counter
| set_boot_factory
| set_post_reset_flag_factory
| reset_homekit_store
| stop_homekit
| wait_hap_clients
| stop_mdns
| stop_provisioning
| stop_wifi
| erase_wifi_credentials
| clear_fw_config
| clear_lcm_state
| erase_otadata
| erase_ota_apps
| restore_wifi_defaults
| erase_nvs_partition
| delay_before_reset
| reboot
deriving DecidableEq, Repr

/-- `lifecycle_shutdown_homekit`: stop_homekit, the 100 ms client grace
wait, mDNS teardown, and optionally the HomeKit store reset. -/
def lifecycle_shutdown_homekit_steps (reset_store : Bool) : List Step :=
  [Step.stop_homekit, Step.wait_hap_clients, Step.stop_mdns] ++
  (if reset_store then [Step.reset_homekit_store] else [])

/-- `lifecycle_stop_provisioning_servers`: the weak wifi_config_shutdown
hook runs only when it is linked in; its absence is not an error. -/
def lifecycle_stop_provisioning_servers_steps (hook_present : Bool) :
    List Step :=
  if hook_present then [Step.stop_provisioning] else []

/-- `lifecycle_perform_common_shutdown`: HomeKit shutdown, provisioning
hook, then wifi_stop; every failure inside is only logged. -/
def lifecycle_perform_common_shutdown_steps (reset_homekit_store : Bool)
    (hook_present : Bool) : List Step :=
  lifecycle_shutdown_homekit_steps reset_homekit_store ++
  lifecycle_stop_provisioning_servers_steps hook_present ++ [Step.stop_wifi]

/-- `lifecycle_factory_reset_and_reboot` as the trace of steps it attempts.
Only the presence of the factory partition, the boot-selection outcome and
the provisioning hook change which steps appear; every storage or erase
failure is logged and the sequence continues, ending in esp_restart. -/
def lifecycle_factory_reset_and_reboot_steps (f : ResetFaults) : List Step :=
  [Step.reset_restart_counter] ++
  (if f.factory_partition_missing then []
   else
     [Step.set_boot_factory] ++
     (if f.set_boot_fails then [] else [Step.set_post_reset_flag_factory])) ++
  [Step.reset_homekit_store] ++
  lifecycle_perform_common_shutdown_steps false f.provisioning_hook_present ++
  [Step.erase_wifi_credentials, Step.clear_fw_config, Step.clear_lcm_state,
   Step.erase_otadata, Step.erase_ota_apps, Step.restore_wifi_defaults,
   Step.erase_nvs_partition, Step.delay_before_reset, Step.reboot]

/-- esp_partition type and subtype constants used by the erase helpers. -/
def ESP_PARTITION_TYPE_APP : Nat := 0

def ESP_PARTITION_TYPE_DATA : Nat := 1

def ESP_PARTITION_SUBTYPE_APP_FACTORY : Nat := 0

def ESP_PARTITION_SUBTYPE_APP_OTA_MIN : Nat := 16

def ESP_PARTITION_SUBTYPE_APP_OTA_MAX : Nat := 32

def ESP_PARTITION_SUBTYPE_DATA_OTA : Nat := 0

/-- One entry of the partition table. -/
structure EspPartition where
  ptype : Nat
  subtype : Nat
  label : String
deriving DecidableEq, Repr

/-- `erase_ota_partition_by_label`: iterate every APP-type partition; an
erase is attempted exactly on those whose label matches and whose subtype
lies in the OTA application range.  Returns the partitions on which
esp_partition_erase_range is invoked, in table order. -/
def erase_ota_partition_by_label (layout : List EspPartition)
    (label : String) : List EspPartition :=
  (layout.filter (fun p => p.ptype == ESP_PARTITION_TYPE_APP)).filter
    (fun p =>
      p.label == label &&
      decide (ESP_PARTITION_SUBTYPE_APP_OTA_MIN ≤ p.subtype) &&
      decide (p.subtype ≤ ESP_PARTITION_SUBTYPE_APP_OTA_MAX))

/-- `erase_ota_app_partitions`: the per-label helper is called exactly for
the OTA slot labels ota_1, ota_2, ota_0, in that order. -/
def erase_ota_app_partitions (layout : List EspPartition) :
    List EspPartition :=
  erase_ota_partition_by_label layout "ota_1" ++
  erase_ota_partition_by_label layout "ota_2" ++
  erase_ota_partition_by_label layout "ota_0"

/-- `erase_otadata_partition`: erases the first DATA-type partition with
the OTA-data subtype, when one exists (find_first semantics). -/
def erase_otadata_partition (layout : List EspPartition) :
    List EspPartition :=
  (layout.filter (fun p =>
     p.ptype == ESP_PARTITION_TYPE_DATA &&
     p.subtype == ESP_PARTITION_SUBTYPE_DATA_OTA)).take 1

/-- Every partition on which the factory-reset sequence attempts an
esp_partition_erase_range call. -/
def factory_reset_erased_partitions (layout : List EspPartition) :
    List EspPartition :=
  erase_otadata_partition layout ++ erase_ota_app_partitions layout

/-
  Theorems.
-/

/-- Claim C3: incrementing the restart counter at UINT32_MAX yields 1 (the
counter is set to 0 before incrementing, saturate-then-wrap); for every
value below UINT32_MAX incrementing yields the value plus one; the result
never exceeds UINT32_MAX, so no unsigned overflow occurs. -/
theorem increment_restart_counter_saturates :
    lifecycle_increment_restart_counter UINT32_MAX = 1 ∧
    (∀ c, c < UINT32_MAX → lifecycle_increment_restart_counter c = c + 1) ∧
    (∀ c, c ≤ UINT32_MAX → lifecycle_increment_restart_counter c ≤ UINT32_MAX) := by
  refine ⟨by simp [lifecycle_increment_restart_counter], ?_, ?_⟩
  · intro c hc
    unfold lifecycle_increment_restart_counter
    rw [if_neg (Nat.ne_of_lt hc)]
  · intro c hc
    simp only [lifecycle_increment_restart_counter, UINT32_MAX] at hc ⊢
    split <;> omega

/-- Witness for increment_restart_counter_saturates at concrete inputs. -/
theorem increment_restart_counter_saturates_witness :
    lifecycle_increment_restart_counter 5 = 6 ∧
    lifecycle_increment_restart_counter UINT32_MAX ≤ UINT32_MAX :=
  ⟨increment_restart_counter_saturates.2.1 5 (by decide),
   increment_restart_counter_saturates.2.2 UINT32_MAX (by decide)⟩

/-- Claim C5: the post-reset reason round-trips through the RTC block —
after marking UPDATE and a warm reboot (RTC state preserved, so reading the
same state) the peek returns UPDATE; after the clear step a second peek
returns NONE; a non-matching validity tag or an out-of-range stored code
decodes to NONE. -/
theorem post_reset_reason_roundtrip :
    ∀ s : PostResetState,
      lifecycle_peek_post_reset_reason
          (lifecycle_mark_post_reset s LIFECYCLE_POST_RESET_REASON_UPDATE) =
        LIFECYCLE_POST_RESET_REASON_UPDATE ∧
      lifecycle_peek_post_reset_reason
          (lifecycle_clear_post_reset_state
            (lifecycle_mark_post_reset s LIFECYCLE_POST_RESET_REASON_UPDATE)) =
        LIFECYCLE_POST_RESET_NONE ∧
      (s.magic ≠ k_post_reset_magic →
        lifecycle_peek_post_reset_reason s = LIFECYCLE_POST_RESET_NONE) ∧
      (3 < s.reason →
        lifecycle_peek_post_reset_reason s = LIFECYCLE_POST_RESET_NONE) := by
  intro s
  refine ⟨?_, ?_, ?_, ?_⟩
  · simp [lifecycle_peek_post_reset_reason, lifecycle_mark_post_reset,
          reason_code, reason_of_code]
  · simp [lifecycle_peek_post_reset_reason, lifecycle_clear_post_reset_state,
          lifecycle_mark_post_reset, k_post_reset_magic]
  · intro h
    simp [lifecycle_peek_post_reset_reason, h]
  · intro h
    unfold lifecycle_peek_post_reset_reason
    by_cases hm : s.magic ≠ k_post_reset_magic
    · rw [if_pos hm]
    · rw [if_neg hm, if_pos h]

/-- Witness for post_reset_reason_roundtrip: an untagged state and a tagged
state with an out-of-range code both decode to NONE. -/
theorem post_reset_reason_roundtrip_witness :
    lifecycle_peek_post_reset_reason ⟨0, 7, 5⟩ = LIFECYCLE_POST_RESET_NONE ∧
    lifecycle_peek_post_reset_reason ⟨k_post_reset_magic, 9, 0⟩ =
      LIFECYCLE_POST_RESET_NONE :=
  ⟨(post_reset_reason_roundtrip ⟨0, 7, 5⟩).2.2.1 (by decide),
   (post_reset_reason_roundtrip ⟨k_post_reset_magic, 9, 0⟩).2.2.2 (by decide)⟩

/-- Claim C6: when the restart debounce timer fires with no intervening
boot, the reset-counter procedure runs: the RTC counter is set to 0, and
when the durable write succeeds the durable tier holds 0 as well. -/
theorem restart_counter_timeout_clears_both_tiers :
    ∀ (s : PostResetState) (store : Option Nat) (f : BootFaults),
      (lifecycle_restart_counter_timeout s store f).1.restart_count = 0 ∧
      (f.save_fails = false →
        (lifecycle_restart_counter_timeout s store f).2 = some 0) := by
  intro s store f
  refine ⟨rfl, fun h => ?_⟩
  simp [lifecycle_restart_counter_timeout, lifecycle_reset_restart_counter,
        save_restart_counter_to_nvs, h]

/-- Witness for restart_counter_timeout_clears_both_tiers: a timer firing
with counter 7 in both tiers leaves 0 in both. -/
theorem restart_counter_timeout_clears_both_tiers_witness :
    (lifecycle_restart_counter_timeout ⟨0, 0, 7⟩ (some 7) noFaults).1.restart_count = 0 ∧
    (lifecycle_restart_counter_timeout ⟨0, 0, 7⟩ (some 7) noFaults).2 = some 0 :=
  ⟨(restart_counter_timeout_clears_both_tiers ⟨0, 0, 7⟩ (some 7) noFaults).1,
   (restart_counter_timeout_clears_both_tiers ⟨0, 0, 7⟩ (some 7) noFaults).2 rfl⟩

theorem run_wifi_ready_started (n : Nat) : run_wifi_ready n true = (true, 0) := by
  induction n with
  | zero => rfl
  | succ n ih => simp [run_wifi_ready, on_wifi_ready, ih]

/-- Claim C10: the HomeKit server is initialised at most once per power
cycle — over any number of ready-callback invocations starting from the
power-on value of the guard flag, homekit_server_init is called min n 1
times: the first invocation calls it, every later invocation returns
without reinitialising. -/
theorem homekit_server_init_at_most_once :
    (∀ n, (run_wifi_ready n false).2 = min n 1) ∧
    (on_wifi_ready false).2 = true ∧
    (on_wifi_ready true).2 = false ∧
    (on_wifi_ready true).1 = true := by
  refine ⟨?_, rfl, rfl, rfl⟩
  intro n
  cases n with
  | zero => rfl
  | succ n =>
    simp [run_wifi_ready, on_wifi_ready, run_wifi_ready_started n]

/-- Claim C2: on every boot where the durable-store read succeeds, the
counter reported at boot is the reconciled maximum of the RTC counter and
the durable counter passed through the counter increment (which adds one
whenever the maximum is below UINT32_MAX); when neither tier has a prior
value the reported counter is 1. -/
theorem boot_counter_is_reconciled_max_incremented :
    (∀ (st : LcmState) (f : BootFaults), f.load_fails = false →
      (lifecycle_log_post_reset_state st f).2.reported_count =
        lifecycle_increment_restart_counter
          (max st.post_reset.restart_count (st.nvs_count.getD 0)) ∧
      (max st.post_reset.restart_count (st.nvs_count.getD 0) < UINT32_MAX →
        (lifecycle_log_post_reset_state st f).2.reported_count =
          max st.post_reset.restart_count (st.nvs_count.getD 0) + 1)) ∧
    (lifecycle_log_post_reset_state freshState noFaults).2.reported_count = 1 := by
  refine ⟨?_, by decide⟩
  intro st f h
  have hrec : reconciled_counter st f =
      max st.post_reset.restart_count (st.nvs_count.getD 0) := by
    unfold reconciled_counter load_restart_counter_from_nvs
    rw [h]
    simp only [Bool.false_eq_true, if_false]
    split <;> omega
  have key : (lifecycle_log_post_reset_state st f).2.reported_count =
      lifecycle_increment_restart_counter
        (max st.post_reset.restart_count (st.nvs_count.getD 0)) := by
    unfold lifecycle_log_post_reset_state
    rw [hrec]
    dsimp only
    split <;> rfl
  refine ⟨key, fun hlt => ?_⟩
  rw [key]
  unfold lifecycle_increment_restart_counter
  rw [if_neg (Nat.ne_of_lt hlt)]

/-- Witness for boot_counter_is_reconciled_max_incremented: a warm reboot
with RTC counter 5 and stale durable counter 3 reports 6. -/
theorem boot_counter_is_reconciled_max_incremented_witness :
    (lifecycle_log_post_reset_state
        { post_reset := { magic := 0, reason := 0, restart_count := 5 },
          nvs_count := some 3 } noFaults).2.reported_count = 6 := by
  have h := boot_counter_is_reconciled_max_incremented.1
    { post_reset := { magic := 0, reason := 0, restart_count := 5 },
      nvs_count := some 3 } noFaults rfl
  exact (h.2 (by decide)).trans (by decide)

/-- A boot state in which the previous nine boots left 9 in both tiers. -/
def crashSt : LcmState :=
  { post_reset := { magic := 0, reason := 0, restart_count := 9 },
    nvs_count := some 9 }

/-- Claim C1 counterexample: on the tenth consecutive boot the crash-loop
branch logs a countdown of 11 discrete steps (the loop runs from 10 down
to 0 inclusive), not 10 as the claim states. -/
theorem crash_loop_countdown_is_not_ten_steps :
    (lifecycle_log_post_reset_state crashSt noFaults).2.factory_reset_invoked
        = true ∧
    (lifecycle_log_post_reset_state crashSt noFaults).2.countdown.length = 11 ∧
    ¬ (lifecycle_log_post_reset_state crashSt noFaults).2.countdown.length
        = 10 := by
  refine ⟨by decide, by decide, by decide⟩

/-- Claim C1 (amended): on any boot where the reconciled-and-incremented
counter n satisfies n ≥ 10, the boot protocol logs a countdown of 11
discrete steps (counting 10 down to 0), each followed by a 1000 ms delay,
resets the restart counter (0 in the returned state) and invokes the
factory-reset-and-reboot sequence, all before the post-reset reason is
reported (no reason is reported on that boot); across ten consecutive
boots from a fresh state without an intervening debounce-timer firing,
exactly one automatic factory-reset invocation occurs and the counter is 0
immediately after. -/
theorem crash_loop_boot_protocol :
    (∀ (st : LcmState) (f : BootFaults),
      10 ≤ lifecycle_increment_restart_counter (reconciled_counter st f) →
      (lifecycle_log_post_reset_state st f).2.countdown = countdownSteps ∧
      (lifecycle_log_post_reset_state st f).2.countdown.length = 11 ∧
      (∀ step ∈ (lifecycle_log_post_reset_state st f).2.countdown,
        step.2 = 1000) ∧
      (lifecycle_log_post_reset_state st f).2.factory_reset_invoked = true ∧
      (lifecycle_log_post_reset_state st f).2.reported_reason = none ∧
      (lifecycle_log_post_reset_state st f).1.post_reset.restart_count = 0) ∧
    (runBoots 10 freshState).2 = 1 ∧
    (runBoots 10 freshState).1.post_reset.restart_count = 0 := by
  refine ⟨?_, by decide, by decide⟩
  intro st f h
  have key : lifecycle_log_post_reset_state st f =
      ({ post_reset :=
           (lifecycle_reset_restart_counter
             { st.post_reset with restart_count :=
                 lifecycle_increment_restart_counter (reconciled_counter st f) }
             (save_restart_counter_to_nvs st.nvs_count
               (lifecycle_increment_restart_counter (reconciled_counter st f))
               f).1 f).1,
         nvs_count :=
           (lifecycle_reset_restart_counter
             { st.post_reset with restart_count :=
                 lifecycle_increment_restart_counter (reconciled_counter st f) }
             (save_restart_counter_to_nvs st.nvs_count
               (lifecycle_increment_restart_counter (reconciled_counter st f))
               f).1 f).2 },
       { reported_count :=
           lifecycle_increment_restart_counter (reconciled_counter st f),
         countdown := countdownSteps,
         factory_reset_invoked := true,
         reported_reason := none }) := by
    unfold lifecycle_log_post_reset_state
    rw [if_pos h]
  rw [key]
  refine ⟨rfl, rfl, ?_, rfl, rfl, rfl⟩
  intro step hstep
  simp only [countdownSteps, List.mem_map, List.mem_range] at hstep
  obtain ⟨k, _, rfl⟩ := hstep
  rfl

/-- Witness for crash_loop_boot_protocol: the tenth consecutive boot from
counter 9 in both tiers runs the countdown and leaves the counter at 0. -/
theorem crash_loop_boot_protocol_witness :
    (lifecycle_log_post_reset_state crashSt noFaults).2.countdown
        = countdownSteps ∧
    (lifecycle_log_post_reset_state crashSt noFaults).1.post_reset.restart_count
        = 0 := by
  have h := crash_loop_boot_protocol.1 crashSt noFaults (by decide)
  exact ⟨h.1, h.2.2.2.2.2⟩

/-- The factory-reset step trace depends only on the three branch flags;
every other fault is logged without changing which steps run. -/
theorem factory_reset_steps_depend_only_on_branch_flags (f : ResetFaults) :
    lifecycle_factory_reset_and_reboot_steps f =
      lifecycle_factory_reset_and_reboot_steps
        { nvs_save_fails := false, nvs_open_fails := false,
          factory_partition_missing := f.factory_partition_missing,
          set_boot_fails := f.set_boot_fails, mdns_remove_fails := false,
          wifi_stop_fails := false, partition_erase_fails := false,
          nvs_erase_fails := false, wifi_restore_fails := false,
          provisioning_hook_present := f.provisioning_hook_present } := rfl

/-- Claim C4: for every combination of outcomes of its fallible steps
(including every storage open/erase/commit call and every partition erase
failing), the factory-reset-and-reboot sequence attempts all of its later
steps despite earlier step errors, ends on the reboot step, and reaches
the final reboot call exactly once. -/
theorem factory_reset_always_reaches_reboot :
    ∀ f : ResetFaults,
      (lifecycle_factory_reset_and_reboot_steps f).count Step.reboot = 1 ∧
      (lifecycle_factory_reset_and_reboot_steps f).getLast?
        = some Step.reboot ∧
      Step.reset_restart_counter ∈ lifecycle_factory_reset_and_reboot_steps f ∧
      Step.reset_homekit_store ∈ lifecycle_factory_reset_and_reboot_steps f ∧
      Step.stop_homekit ∈ lifecycle_factory_reset_and_reboot_steps f ∧
      Step.stop_wifi ∈ lifecycle_factory_reset_and_reboot_steps f ∧
      Step.erase_wifi_credentials ∈ lifecycle_factory_reset_and_reboot_steps f ∧
      Step.clear_fw_config ∈ lifecycle_factory_reset_and_reboot_steps f ∧
      Step.clear_lcm_state ∈ lifecycle_factory_reset_and_reboot_steps f ∧
      Step.erase_otadata ∈ lifecycle_factory_reset_and_reboot_steps f ∧
      Step.erase_ota_apps ∈ lifecycle_factory_reset_and_reboot_steps f ∧
      Step.restore_wifi_defaults ∈ lifecycle_factory_reset_and_reboot_steps f ∧
      Step.erase_nvs_partition ∈ lifecycle_factory_reset_and_reboot_steps f := by
  intro f
  rw [factory_reset_steps_depend_only_on_branch_flags f]
  cases hfm : f.factory_partition_missing <;>
    cases hsb : f.set_boot_fails <;>
      cases hhp : f.provisioning_hook_present <;> decide

/-- Claim C7: a wifi_start call while the interface is already started only
replaces the stored ready-callback and returns ESP_OK: no credential load,
no event-handler registration, no duplicate radio start, and the started
state is unchanged. -/
theorem wifi_start_when_already_started :
    ∀ (s : WifiState) (cb : Nat) (env : WifiEnv), s.s_wifi_started = true →
      wifi_start s cb env =
        (EspErr.ESP_OK, { s with s_wifi_on_ready_cb := some cb }, []) ∧
      (wifi_start s cb env).2.1.s_wifi_started = s.s_wifi_started ∧
      WifiAction.load_credentials ∉ (wifi_start s cb env).2.2 ∧
      WifiAction.register_wifi_handler ∉ (wifi_start s cb env).2.2 ∧
      WifiAction.register_ip_handler ∉ (wifi_start s cb env).2.2 ∧
      WifiAction.radio_start ∉ (wifi_start s cb env).2.2 := by
  intro s cb env h
  have key : wifi_start s cb env =
      (EspErr.ESP_OK, { s with s_wifi_on_ready_cb := some cb }, []) := by
    unfold wifi_start
    rw [if_pos h]
  rw [key]
  refine ⟨rfl, rfl, ?_, ?_, ?_, ?_⟩ <;> simp

/-- Concrete already-started wifi state for the C7 witness. -/
def wifiStartedState : WifiState :=
  { s_wifi_started := true, s_wifi_on_ready_cb := some 1, s_wifi_netif := true,
    wifi_handler_registered := true, ip_handler_registered := true,
    radio_started := true,
    sta_authmode := some WifiAuthMode.WIFI_AUTH_WPA2_PSK }

/-- Concrete provisioned, fault-free environment for the C7 witness. -/
def provisionedEnv : WifiEnv :=
  { nvs_ssid := some "Home", nvs_password := some "secret123",
    nvs_init_fails := false, nvs_open_fails := false,
    netif_init_fails := false, event_loop_create_fails := false,
    netif_create_fails := false, wifi_handler_register_fails := false,
    ip_handler_register_fails := false, wifi_init_fails := false,
    radio_start_fails := false }

/-- Witness for wifi_start_when_already_started: a second start call only
swaps the callback. -/
theorem wifi_start_when_already_started_witness :
    wifi_start wifiStartedState 2 provisionedEnv =
      (EspErr.ESP_OK,
       { wifiStartedState with s_wifi_on_ready_cb := some 2 }, []) :=
  (wifi_start_when_already_started wifiStartedState 2 provisionedEnv rfl).1

/-- Claim C8: a wifi_start call with no stored SSID (and the NVS open path
itself healthy) returns the distinct not-provisioned error
ESP_ERR_NVS_NOT_FOUND having only attempted the credential load: the state
is unchanged, no interface initialisation is attempted, no event handler
is registered, and the manager remains stopped. -/
theorem wifi_start_not_provisioned :
    ∀ (s : WifiState) (cb : Nat) (env : WifiEnv),
      s.s_wifi_started = false → env.nvs_init_fails = false →
      env.nvs_open_fails = false → env.nvs_ssid = none →
      wifi_start s cb env =
        (EspErr.ESP_ERR_NVS_NOT_FOUND, s, [WifiAction.load_credentials]) ∧
      (wifi_start s cb env).1 ≠ EspErr.ESP_OK ∧
      (wifi_start s cb env).2.1 = s ∧
      (wifi_start s cb env).2.1.s_wifi_started = false ∧
      (wifi_start s cb env).2.1.wifi_handler_registered
        = s.wifi_handler_registered ∧
      (wifi_start s cb env).2.1.ip_handler_registered
        = s.ip_handler_registered ∧
      WifiAction.netif_init ∉ (wifi_start s cb env).2.2 ∧
      WifiAction.netif_create ∉ (wifi_start s cb env).2.2 ∧
      WifiAction.register_wifi_handler ∉ (wifi_start s cb env).2.2 ∧
      WifiAction.register_ip_handler ∉ (wifi_start s cb env).2.2 ∧
      WifiAction.radio_start ∉ (wifi_start s cb env).2.2 := by
  intro s cb env h1 h2 h3 h4
  have key : wifi_start s cb env =
      (EspErr.ESP_ERR_NVS_NOT_FOUND, s, [WifiAction.load_credentials]) := by
    unfold wifi_start nvs_load_wifi
    rw [h1, h2, h3, h4]
    rfl
  rw [key]
  refine ⟨rfl, by simp, rfl, h1, rfl, rfl, ?_, ?_, ?_, ?_, ?_⟩ <;> simp

/-- Concrete stopped wifi state for the C8 witness. -/
def wifiStoppedState : WifiState :=
  { s_wifi_started := false, s_wifi_on_ready_cb := none,
    s_wifi_netif := false, wifi_handler_registered := false,
    ip_handler_registered := false, radio_started := false,
    sta_authmode := none }

/-- Concrete unprovisioned, fault-free environment for the C8 witness. -/
def noCredsEnv : WifiEnv :=
  { nvs_ssid := none, nvs_password := none,
    nvs_init_fails := false, nvs_open_fails := false,
    netif_init_fails := false, event_loop_create_fails := false,
    netif_create_fails := false, wifi_handler_register_fails := false,
    ip_handler_register_fails := false, wifi_init_fails := false,
    radio_start_fails := false }

/-- Witness for wifi_start_not_provisioned: a start call on an
unprovisioned device returns the not-provisioned error and changes
nothing. -/
theorem wifi_start_not_provisioned_witness :
    wifi_start wifiStoppedState 1 noCredsEnv =
      (EspErr.ESP_ERR_NVS_NOT_FOUND, wifiStoppedState,
       [WifiAction.load_credentials]) :=
  (wifi_start_not_provisioned wifiStoppedState 1 noCredsEnv
    rfl rfl rfl rfl).1

/-- Claim C9: no erase operation of the factory-reset sequence targets the
factory app partition — the per-label helper attempts an erase only on
partitions whose subtype lies in the OTA application range (which excludes
the factory subtype), the OTA-apps step passes only the OTA slot labels,
and the OTA-data erase targets a DATA-type partition, so for every
partition layout no APP-type partition with the factory subtype is ever
erased. -/
theorem factory_app_partition_never_erased :
    ∀ (layout : List EspPartition) (label : String) (p : EspPartition),
      (p ∈ erase_ota_partition_by_label layout label →
        ESP_PARTITION_SUBTYPE_APP_OTA_MIN ≤ p.subtype ∧
        p.subtype ≤ ESP_PARTITION_SUBTYPE_APP_OTA_MAX ∧
        p.subtype ≠ ESP_PARTITION_SUBTYPE_APP_FACTORY) ∧
      (p ∈ erase_ota_app_partitions layout →
        p.label = "ota_1" ∨ p.label = "ota_2" ∨ p.label = "ota_0") ∧
      (p ∈ factory_reset_erased_partitions layout →
        ¬ (p.ptype = ESP_PARTITION_TYPE_APP ∧
           p.subtype = ESP_PARTITION_SUBTYPE_APP_FACTORY)) := by
  intro layout label p
  have hlab : ∀ lab : String, p ∈ erase_ota_partition_by_label layout lab →
      (ESP_PARTITION_SUBTYPE_APP_OTA_MIN ≤ p.subtype ∧
       p.subtype ≤ ESP_PARTITION_SUBTYPE_APP_OTA_MAX ∧
       p.subtype ≠ ESP_PARTITION_SUBTYPE_APP_FACTORY) ∧ p.label = lab := by
    intro lab hp
    simp only [erase_ota_partition_by_label, List.mem_filter,
               Bool.and_eq_true, decide_eq_true_eq, beq_iff_eq] at hp
    obtain ⟨-, ⟨hl, hmin⟩, hmax⟩ := hp
    refine ⟨⟨hmin, hmax, ?_⟩, hl⟩
    simp only [ESP_PARTITION_SUBTYPE_APP_OTA_MIN,
               ESP_PARTITION_SUBTYPE_APP_FACTORY] at hmin ⊢
    omega
  refine ⟨fun hp => (hlab label hp).1, fun hp => ?_, fun hp => ?_⟩
  · simp only [erase_ota_app_partitions, List.mem_append] at hp
    rcases hp with (hp | hp) | hp
    · exact Or.inl (hlab "ota_1" hp).2
    · exact Or.inr (Or.inl (hlab "ota_2" hp).2)
    · exact Or.inr (Or.inr (hlab "ota_0" hp).2)
  · rintro ⟨hty, hsub⟩
    simp only [factory_reset_erased_partitions, List.mem_append] at hp
    rcases hp with hp | hp
    · have hp2 : p ∈ (layout.filter (fun q =>
          q.ptype == ESP_PARTITION_TYPE_DATA &&
          q.subtype == ESP_PARTITION_SUBTYPE_DATA_OTA)) := by
        have hsub1 := List.take_subset 1 (layout.filter (fun q =>
          q.ptype == ESP_PARTITION_TYPE_DATA &&
          q.subtype == ESP_PARTITION_SUBTYPE_DATA_OTA))
        exact hsub1 hp
      simp only [List.mem_filter, Bool.and_eq_true, beq_iff_eq] at hp2
      have hdata := hp2.2.1
      simp only [ESP_PARTITION_TYPE_DATA] at hdata
      simp only [ESP_PARTITION_TYPE_APP] at hty
      omega
    · simp only [erase_ota_app_partitions, List.mem_append] at hp
      have hbound :
          ESP_PARTITION_SUBTYPE_APP_OTA_MIN ≤ p.subtype ∧
          p.subtype ≤ ESP_PARTITION_SUBTYPE_APP_OTA_MAX ∧
          p.subtype ≠ ESP_PARTITION_SUBTYPE_APP_FACTORY := by
        rcases hp with (hp | hp) | hp
        · exact (hlab "ota_1" hp).1
        · exact (hlab "ota_2" hp).1
        · exact (hlab "ota_0" hp).1
      exact hbound.2.2 hsub

/-- Every fault raised at once, with the provisioning hook absent. -/
def allFaults : ResetFaults :=
  { nvs_save_fails := true, nvs_open_fails := true,
    factory_partition_missing := true, set_boot_fails := true,
    mdns_remove_fails := true, wifi_stop_fails := true,
    partition_erase_fails := true, nvs_erase_fails := true,
    wifi_restore_fails := true, provisioning_hook_present := false }

/-- Witness for factory_reset_always_reaches_reboot: with every fallible
step failing the sequence still reaches exactly one reboot, at the end. -/
theorem factory_reset_always_reaches_reboot_witness :
    (lifecycle_factory_reset_and_reboot_steps allFaults).count Step.reboot
        = 1 ∧
    (lifecycle_factory_reset_and_reboot_steps allFaults).getLast?
        = some Step.reboot :=
  ⟨(factory_reset_always_reaches_reboot allFaults).1,
   (factory_reset_always_reaches_reboot allFaults).2.1⟩

/-- Witness for homekit_server_init_at_most_once: three ready-callback
invocations call the server init exactly once. -/
theorem homekit_server_init_at_most_once_witness :
    (run_wifi_ready 3 false).2 = min 3 1 :=
  homekit_server_init_at_most_once.1 3

/-- A representative partition table: factory app image, one OTA slot, and
the OTA-data region. -/
def sampleLayout : List EspPartition :=
  [{ ptype := ESP_PARTITION_TYPE_APP,
     subtype := ESP_PARTITION_SUBTYPE_APP_FACTORY, label := "factory" },
   { ptype := ESP_PARTITION_TYPE_APP, subtype := 16, label := "ota_0" },
   { ptype := ESP_PARTITION_TYPE_DATA,
     subtype := ESP_PARTITION_SUBTYPE_DATA_OTA, label := "otadata" }]

/-- Witness for factory_app_partition_never_erased: the erased ota_0 slot
of the sample layout is not the factory partition. -/
theorem factory_app_partition_never_erased_witness :
    (⟨ESP_PARTITION_TYPE_APP, 16, "ota_0"⟩ : EspPartition).subtype ≠
      ESP_PARTITION_SUBTYPE_APP_FACTORY ∧
    ¬ ((⟨ESP_PARTITION_TYPE_APP, 16, "ota_0"⟩ : EspPartition).ptype
          = ESP_PARTITION_TYPE_APP ∧
       (⟨ESP_PARTITION_TYPE_APP, 16, "ota_0"⟩ : EspPartition).subtype
          = ESP_PARTITION_SUBTYPE_APP_FACTORY) :=
  ⟨((factory_app_partition_never_erased sampleLayout "ota_0"
      ⟨ESP_PARTITION_TYPE_APP, 16, "ota_0"⟩).1 (by decide)).2.2,
   (factory_app_partition_never_erased sampleLayout "ota_0"
      ⟨ESP_PARTITION_TYPE_APP, 16, "ota_0"⟩).2.2 (by decide)⟩
